import Mathlib

/-!
Shallow embedding of the call-tracking backend
(backend/src/api/router.py, backend/src/utils/db.py, backend/src/utils/utils.py).

Timestamps are modelled as integers (seconds); statuses and event names are
the literal strings used by the code.  Python exceptions are modelled with
`Except PyErr`; unresolved Python names (module-level `NameError`) and missing
object attributes (`AttributeError`) are modelled by explicit name-resolution
steps over the lists of names that the source actually binds.
-/

namespace CallBackend

/-- Python exceptions that the embedded code can raise. -/
inductive PyErr where
  | attributeError (name : String)
  | nameError (name : String)
  deriving Repr, DecidableEq

/-- Names bound at module level in backend/src/utils/db.py (its import list,
lines 1-16: os, datetime, bcrypt, urllib, json, psycopg2, pool, logging,
RealDictCursor, load_dotenv, traceback) plus the class it defines.  The name
`timezone` is not among them and is not a Python builtin. -/
def dbModuleNames : List String :=
  ["os", "datetime", "bcrypt", "urllib", "json", "psycopg2", "pool",
   "logging", "RealDictCursor", "load_dotenv", "traceback", "PGDB"]

/-- Resolution of a global name inside db.py: raises NameError when the
name is not bound at module level. -/
def resolveDbName (n : String) : Except PyErr Unit :=
  if dbModuleNames.contains n then .ok () else .error (.nameError n)

/-- Attribute names defined by class PGDB (db.py lines 18-1212): the two class
variables, the instance variable set in `__init__`, and every method `def`. -/
def pgdbAttributes : List String :=
  ["_instance", "_pool", "connection_string",
   "get_connection", "release_connection",
   "create_user_prompts_table", "create_default_user_prompt",
   "get_user_prompt", "update_user_system_prompt",
   "reset_user_prompt_to_default", "get_user_customization_dict",
   "update_call_history_for_recordings", "store_recording_blob",
   "get_recording_blob", "register_user", "create_users_table",
   "create_call_history_table", "login_user", "get_user_by_id",
   "delete_user_by_id", "update_user_name_fields", "change_user_password",
   "get_all_users", "get_all_users_paginated", "insert_call_history",
   "update_call_history", "get_call_history_by_user_id",
   "create_appointment", "create_appointments_table",
   "get_user_appointments", "check_appointment_conflict",
   "get_available_slots", "get_call_by_id", "add_call_event",
   "add_agent_event"]

/-- Attribute lookup on the PGDB singleton: AttributeError when the class
defines no such attribute. -/
def getattrPGDB (n : String) : Except PyErr Unit :=
  if pgdbAttributes.contains n then .ok () else .error (.attributeError n)

/-- Evaluation of the expression `db.conn` (router.py uses `with db.conn() as
(conn, cursor)` in several handlers). -/
def dbConn : Except PyErr Unit := getattrPGDB "conn"

/-- Participant object inside a webhook payload (`data["participant"]`). -/
structure Participant where
  identity : Option String
  deriving Repr, DecidableEq

/-- The part of a platform webhook payload that the reconciliation logic
reads back from the stored event log. -/
structure EventData where
  participant : Option Participant
  deriving Repr, DecidableEq

/-- One entry of call_history.events_log, as written by add_call_event:
`{"event": name, "timestamp": iso-string, "data": payload}`. -/
structure CallEvent where
  event : String
  timestamp : Int
  data : EventData
  deriving Repr, DecidableEq

/-- The identity-access path of utils.check_if_answered (utils.py 424-428):
`ev.get("data", \x7b\x7d).get("participant", \x7b\x7d).get("identity", "")`. -/
def CallEvent.identityOf (ev : CallEvent) : String :=
  match ev.data.participant with
  | some p => p.identity.getD ""
  | none => ""

/-- One entry of call_history.agent_events, as written by add_agent_event. -/
structure AgentEvent where
  event_type : String
  event_data : String
  timestamp : Int
  received_at : Int
  deriving Repr, DecidableEq

/-- One row of the call_history table (the columns the reconciliation logic
touches; call_id is the key of the enclosing association list). -/
structure CallRecord where
  status : String
  events_log : List CallEvent
  agent_events : List AgentEvent
  created_at : Int
  started_at : Option Int
  ended_at : Option Int
  duration : Option Int
  recording_url : Option String
  deriving Repr, DecidableEq

/-- The call_history table: call_id is declared TEXT NOT NULL UNIQUE, so an
association list keyed by call_id models it. -/
abbrev DB := List (String × CallRecord)

/-- SELECT ... WHERE call_id = cid (first, and by uniqueness only, match). -/
def DB.find : DB → String → Option CallRecord
  | [], _ => none
  | (k, r) :: rest, cid => if k = cid then some r else DB.find rest cid

/-- UPDATE call_history SET ... WHERE call_id = cid: applies f to every row
whose key is cid (by the UNIQUE constraint, at most one). -/
def DB.updateRecord (db : DB) (cid : String) (f : CallRecord → CallRecord) : DB :=
  db.map (fun kv => (kv.1, if kv.1 = cid then f kv.2 else kv.2))

/-- utils.check_if_answered (utils.py 401-441): answered iff the stored log
has an egress_started event or a participant_joined event whose identity
starts with "sip-"; an empty log is unanswered. -/
def check_if_answered (events_log : List CallEvent) : Bool :=
  if events_log.isEmpty then false
  else
    let egress_started := events_log.any (fun ev => ev.event == "egress_started")
    let sip_participant_joined := events_log.any (fun ev =>
      ev.event == "participant_joined" && (CallEvent.identityOf ev).startsWith "sip-")
    egress_started || sip_participant_joined

/-- utils.calculate_duration (utils.py 349-398) on integer timestamps: 0 when
either timestamp is missing, else the difference clamped below by 0. -/
def calculate_duration (started_at ended_at : Option Int) : Int :=
  match started_at, ended_at with
  | some s, some e =>
    let duration := e - s
    if duration < 0 then 0 else max 0 duration
  | _, _ => 0

/-- add_call_event (utils.py 109-146 and db.py 1113-1157, identical logic):
read the events_log of the row, no-op when the call is unknown or an event of
the same name is already present, otherwise append and write back. -/
def add_call_event (db : DB) (call_id event_type : String)
    (now : Int) (event_data : EventData) : DB :=
  match DB.find db call_id with
  | none => db
  | some row =>
    if row.events_log.any (fun ev => ev.event == event_type) then db
    else
      DB.updateRecord db call_id (fun r =>
        { r with events_log := r.events_log ++
            [{ event := event_type, timestamp := now, data := event_data }] })

/-- PGDB.add_agent_event (db.py 1159-1212).  The wall clock at the moment of
the invocation is `now`.  Both `timestamp = datetime.now(timezone.utc)
.isoformat()` (line 1162, default-argument case) and `now = datetime.now(
timezone.utc)` (line 1182, before the duplicate scan) evaluate the global
name `timezone`, which db.py never imports, so both raise NameError; the
code after those points is translated for completeness but unreachable. -/
def add_agent_event (db : DB) (call_id event_type : String)
    (event_data : String) (timestamp : Option Int) (now : Int) :
    Except PyErr DB := do
  let ts ← match timestamp with
    | some t => pure t
    | none => do
      let _ ← resolveDbName "timezone"
      pure now
  match DB.find db call_id with
  | none => pure db
  | some row => do
    let _ ← resolveDbName "timezone"
    if row.agent_events.any (fun ev =>
        ev.event_type == event_type && (now - ev.timestamp).natAbs < 5) then
      pure db
    else
      pure (DB.updateRecord db call_id (fun r =>
        { r with agent_events := r.agent_events ++
            [{ event_type := event_type, event_data := event_data,
               timestamp := ts, received_at := now }] }))

/-- A column-update map as passed to PGDB.update_call_history by the webhook
and agent-report handlers (the closed set of keys those call sites use). -/
structure CallUpdates where
  status : Option String := none
  duration : Option Int := none
  ended_at : Option Int := none
  started_at : Option Int := none
  recording_url : Option String := none
  deriving Repr, DecidableEq

/-- Application of one update map to one row (the SET clause built by
PGDB.update_call_history, db.py 759-823). -/
def applyUpdates (r : CallRecord) (u : CallUpdates) : CallRecord :=
  { r with
    status := u.status.getD r.status
    duration := match u.duration with | some d => some d | none => r.duration
    ended_at := match u.ended_at with | some t => some t | none => r.ended_at
    started_at := match u.started_at with | some t => some t | none => r.started_at
    recording_url := match u.recording_url with | some l => some l | none => r.recording_url }

/-- PGDB.update_call_history (db.py 759-823): UPDATE ... WHERE call_id = cid;
no row is touched when the call_id is unknown. -/
def update_call_history (db : DB) (call_id : String) (u : CallUpdates) : DB :=
  DB.updateRecord db call_id (fun r => applyUpdates r u)

/-- Python truthiness for an optional string: None and "" are falsy. -/
def optStrTruthy : Option String → Option String
  | some s => if s = "" then none else some s
  | none => none

/-- The canonical status set of get_call_status (router.py 1243). -/
def canonicalStatuses : List String :=
  ["initialized", "dialing", "connected", "completed", "unanswered"]

/-- STATUS_MAP of get_call_status (router.py 1244-1249), with its
`.get(current_status, "initialized")` default. -/
def STATUS_MAP (s : String) : String :=
  if s == "initiated" then "initialized"
  else if s == "in_progress" then "connected"
  else if s == "failed" then "unanswered"
  else if s == "not_attended" then "unanswered"
  else "initialized"

/-- Status normalization step of get_call_status (router.py 1242-1250). -/
def normalizeStatus (s : String) : String :=
  if canonicalStatuses.contains s then s else STATUS_MAP s

/-- The terminal statuses (router.py: \x7b"completed", "unanswered"\x7d). -/
def terminalStatuses : List String := ["completed", "unanswered"]

/-- The non-critical webhook events ignored after logging (router.py 1129). -/
def nonCriticalEvents : List String :=
  ["room_started", "participant_joined", "egress_started", "egress_updated",
   "track_published", "track_unpublished"]

/-- The agent-report statuses accepted by receive_agent_event (router.py 1303). -/
def allowedAgentStatuses : List String :=
  ["initialized", "dialing", "connected", "unanswered"]

/-- The fields of a livekit webhook body that livekit_webhook reads:
the event name, `room.name`, the egress fallbacks `egress_info.room_name`,
the first egress file location, and the participant object of the payload
(which add_call_event stores and check_if_answered later reads). -/
structure WebhookRequest where
  event : String
  room_name : Option String
  egress_room_name : Option String
  egress_file_location : Option String
  participant : Option Participant
  deriving Repr, DecidableEq

/-- Extraction of call_id in livekit_webhook (router.py 1117-1124):
`room.get("name")`, falling back to the egress room name; Python `not
call_id` treats both absence and "" as missing. -/
def webhookCallId (req : WebhookRequest) : Option String :=
  match optStrTruthy req.room_name with
  | some c => some c
  | none => optStrTruthy req.egress_room_name

/-- The update written by the already-final branch of livekit_webhook
(router.py 1158-1168): refresh duration and ended_at only. -/
def terminalRefreshUpdates (row : CallRecord) (now : Int) : CallUpdates :=
  let started := row.started_at.getD row.created_at
  let duration := now - started
  { duration := some (max 0 duration), ended_at := some now }

/-- The final status decided by the recomputation branch of livekit_webhook
(router.py 1170-1177). -/
def recomputeFinalStatus (row : CallRecord) : String :=
  let previously_connected := row.status == "connected" || row.status == "completed"
  let answered := check_if_answered row.events_log
  if answered || previously_connected then "completed" else "unanswered"

/-- The update written by the recomputation branch of livekit_webhook
(router.py 1179-1188). -/
def recomputeUpdates (row : CallRecord) (now : Int) : CallUpdates :=
  let answered := check_if_answered row.events_log
  let started := row.started_at.getD row.created_at
  let duration := if answered then now - started else 0
  { status := some (recomputeFinalStatus row),
    duration := some (max 0 duration),
    ended_at := some now,
    started_at := some started }

/-- Responses returned by the webhook and agent-report handlers. -/
inductive Resp where
  | msg (m : String)
  | err (code : Nat) (e : PyErr)
  | badRequest (m : String)
  | success
  deriving Repr, DecidableEq

/-- livekit_webhook (router.py 1111-1208).  The whole body runs in a `try`
whose `except` returns a 500 error response.  The terminal-trigger branch
evaluates `db.conn` (router.py 1139), and PGDB defines no attribute `conn`,
so that branch raises AttributeError and is answered by the `except` branch;
its continuation is translated for completeness but unreachable. -/
def livekit_webhook (db : DB) (req : WebhookRequest) (now : Int) : DB × Resp :=
  match webhookCallId req with
  | none => (db, .msg "No call_id")
  | some call_id =>
    let db1 := add_call_event db call_id req.event now ⟨req.participant⟩
    if nonCriticalEvents.contains req.event then
      (db1, .msg (req.event ++ " logged"))
    else if req.event == "room_finished" || req.event == "participant_left" then
      match dbConn with
      | .error e => (db1, .err 500 e)
      | .ok _ =>
        match DB.find db1 call_id with
        | none => (db1, .msg "Call not found")
        | some row =>
          if terminalStatuses.contains row.status then
            (update_call_history db1 call_id (terminalRefreshUpdates row now),
             .msg "Duration updated")
          else
            (update_call_history db1 call_id (recomputeUpdates row now),
             .msg ("Call ended: " ++ recomputeFinalStatus row))
    else if req.event == "egress_ended" then
      match optStrTruthy req.egress_file_location with
      | some loc =>
        (update_call_history db1 call_id { recording_url := some loc },
         .msg "Recording saved")
      | none => (db1, .msg (req.event ++ " processed"))
    else
      (db1, .msg (req.event ++ " processed"))

/-- The JSON body of a call-status response (the fields the spec claims
read; field absence models a missing JSON key). -/
structure StatusResponse where
  status : String
  is_final : Bool
  http_code : Nat
  time_elapsed : Option Int
  duration : Option Int
  deriving Repr, DecidableEq

/-- get_call_status (router.py 1211-1290).  Its first statement is `with
db.conn() as (conn, cursor)`; PGDB defines no attribute `conn`, so the
handler always lands in its `except` branch, which returns status "error"
with is_final True and HTTP 500.  The intended body is translated after the
attribute lookup for completeness but unreachable. -/
def get_call_status (db : DB) (call_id : String) (now : Int) : StatusResponse :=
  match dbConn with
  | .error _ => { status := "error", is_final := true, http_code := 500,
                  time_elapsed := none, duration := none }
  | .ok _ =>
    match DB.find db call_id with
    | none => { status := "not_found", is_final := true, http_code := 404,
                time_elapsed := none, duration := none }
    | some row =>
      let current_status := normalizeStatus row.status
      let time_elapsed := now - row.created_at
      let is_final := terminalStatuses.contains current_status
      { status := current_status, is_final := is_final, http_code := 200,
        time_elapsed := some time_elapsed,
        duration := match row.duration with
          | some d => if is_final && d != 0 then some d else none
          | none => none }

/-- The JSON body of an agent self-report (router.py 1294-1300). -/
structure AgentReport where
  call_id : Option String
  status : Option String
  timestamp : Option Int
  deriving Repr, DecidableEq

/-- receive_agent_event (router.py 1292-1337).  For a reported status of
dialing or connected the handler evaluates `db.conn` (router.py 1314) to read
started_at; PGDB defines no attribute `conn`, so those reports raise
AttributeError and are answered by the `except` branch with no write; the
started_at logic is translated after the lookup for completeness but
unreachable.  For initialized and unanswered the handler writes the update
map unconditionally. -/
def receive_agent_event (db : DB) (rep : AgentReport) (now : Int) : DB × Resp :=
  match optStrTruthy rep.call_id, optStrTruthy rep.status with
  | none, _ => (db, .badRequest "Missing data")
  | _, none => (db, .badRequest "Missing data")
  | some call_id, some status =>
    if !(allowedAgentStatuses.contains status) then
      (db, .badRequest "Invalid status")
    else if status == "dialing" || status == "connected" then
      match dbConn with
      | .error e => (db, .err 500 e)
      | .ok _ =>
        let u : CallUpdates :=
          match DB.find db call_id with
          | some row =>
            if row.started_at.isNone then
              { status := some status, started_at := some now }
            else { status := some status }
          | none => { status := some status }
        (update_call_history db call_id u, .success)
    else if status == "unanswered" then
      (update_call_history db call_id
        { status := some status, ended_at := some now, duration := some 0 },
       .success)
    else
      (update_call_history db call_id { status := some status }, .success)

/-- One row of the appointments table (db.py 961-989); TIME columns are
modelled as minutes since midnight. -/
structure Appointment where
  user_id : Nat
  appointment_date : String
  start_time : Nat
  end_time : Nat
  status : String
  deriving Repr, DecidableEq

/-- The WHERE clause of PGDB.check_appointment_conflict (db.py 1022-1033)
applied to one row, with the parameters bound as at db.py 1037-1042. -/
def conflictsWith (a : Appointment) (user_id : Nat) (date : String)
    (start_time end_time : Nat) : Bool :=
  a.user_id == user_id && a.appointment_date == date && a.status == "scheduled" &&
  ((a.start_time ≤ start_time && a.end_time > start_time) ||
   (a.start_time < end_time && a.end_time ≥ end_time) ||
   (a.start_time ≥ start_time && a.end_time ≤ end_time))

/-- PGDB.check_appointment_conflict (db.py 1014-1049): COUNT(*) of matching
rows, compared with 0. -/
def check_appointment_conflict (appointments : List Appointment)
    (user_id : Nat) (date : String) (start_time end_time : Nat) : Bool :=
  0 < (appointments.filter
        (fun a => conflictsWith a user_id date start_time end_time)).length

/-- A database connection; alive is false for a connection a liveness probe
would fail on. -/
structure Conn where
  id : Nat
  alive : Bool
  deriving Repr, DecidableEq

/-- The psycopg2 SimpleConnectionPool, reduced to its queue of idle
connections. -/
structure Pool where
  conns : List Conn
  deriving Repr, DecidableEq

/-- PGDB.get_connection (db.py 45-47): `return PGDB._pool.getconn()` — hands
out the next pooled connection unconditionally; on an exhausted pool getconn
raises, which propagates to the caller (modelled as none). -/
def get_connection (p : Pool) : Option (Conn × Pool) :=
  match p.conns with
  | [] => none
  | c :: rest => some (c, ⟨rest⟩)

/-- PGDB.release_connection (db.py 49-51): `PGDB._pool.putconn(conn)` —
returns the connection to the pool unconditionally. -/
def release_connection (p : Pool) (c : Conn) : Pool :=
  ⟨p.conns ++ [c]⟩

/-- Number of entries of an events_log carrying a given event name. -/
def countNamed (log : List CallEvent) (name : String) : Nat :=
  (log.filter (fun ev => ev.event == name)).length

/-- At most one stored event per distinct event name. -/
def uniqueEvents (log : List CallEvent) : Prop :=
  ∀ name, countNamed log name ≤ 1

/-- A concrete already-terminal call row, used in concrete instantiations. -/
def sampleRecord : CallRecord :=
  { status := "completed", events_log := [], agent_events := [],
    created_at := 0, started_at := some 0, ended_at := some 10,
    duration := some 10, recording_url := none }

/-- A concrete in-progress call row holding one agent event whose supplied
timestamp is 100, used in concrete instantiations. -/
def c6Record : CallRecord :=
  { status := "connected", events_log := [],
    agent_events := [{ event_type := "connected", event_data := "",
                       timestamp := 100, received_at := 100 }],
    created_at := 0, started_at := some 0, ended_at := none,
    duration := none, recording_url := none }

/-- A scheduled 13:30-14:30 appointment (minutes since midnight). -/
def apt1330 : Appointment :=
  { user_id := 7, appointment_date := "2025-11-05", start_time := 810,
    end_time := 870, status := "scheduled" }

/-- A scheduled 15:00-16:00 appointment (minutes since midnight). -/
def apt1500 : Appointment :=
  { user_id := 7, appointment_date := "2025-11-05", start_time := 900,
    end_time := 960, status := "scheduled" }

/-- A fresh call row with status initialized and an empty event log. -/
def rec4 : CallRecord := { sampleRecord with status := "initialized" }

/-- The row rec4 after one room_started append at timestamp 1. -/
def rec4b : CallRecord :=
  { status := "initialized",
    events_log := [{ event := "room_started", timestamp := 1,
                     data := { participant := none } }],
    agent_events := [], created_at := 0, started_at := some 0,
    ended_at := some 10, duration := some 10, recording_url := none }

/-! Helper lemmas shared by the claim theorems. -/

/-- Class PGDB binds no attribute named conn, so evaluating db.conn raises
AttributeError. -/
theorem dbConn_eq : dbConn = Except.error (PyErr.attributeError "conn") := rfl

/-- Module db.py binds no global named timezone, so evaluating it raises
NameError. -/
theorem resolveDbName_timezone :
    resolveDbName "timezone" = Except.error (PyErr.nameError "timezone") := rfl

theorem find_updateRecord (db : DB) (cid k : String) (f : CallRecord → CallRecord) :
    DB.find (DB.updateRecord db cid f) k =
      if k = cid then (DB.find db k).map f else DB.find db k := by
  induction db with
  | nil => simp [DB.updateRecord, DB.find]
  | cons hd tl ih =>
    obtain ⟨hk, hr⟩ := hd
    simp only [DB.updateRecord, List.map_cons] at ih ⊢
    by_cases h2 : hk = k
    · subst h2
      by_cases h1 : hk = cid
      · subst h1
        simp [DB.find, ih]
      · simp [DB.find, h1, ih]
    · by_cases h1 : hk = cid
      · subst h1
        simp [DB.find, h2, ih]
      · simp [DB.find, h1, h2, ih]

theorem find_map_status_updateRecord (db : DB) (cid k : String)
    (f : CallRecord → CallRecord) (hf : ∀ r, (f r).status = r.status) :
    (DB.find (DB.updateRecord db cid f) k).map CallRecord.status =
      (DB.find db k).map CallRecord.status := by
  rw [find_updateRecord]
  split
  · cases DB.find db k with
    | none => rfl
    | some r => simp [hf]
  · rfl

theorem find_map_status_add_call_event (db : DB) (cid ev : String) (t : Int)
    (d : EventData) (k : String) :
    (DB.find (add_call_event db cid ev t d) k).map CallRecord.status =
      (DB.find db k).map CallRecord.status := by
  unfold add_call_event
  cases DB.find db cid with
  | none => rfl
  | some row =>
    simp only []
    split
    · rfl
    · exact find_map_status_updateRecord db cid k _ (fun r => rfl)

theorem countNamed_append (l1 l2 : List CallEvent) (n : String) :
    countNamed (l1 ++ l2) n = countNamed l1 n + countNamed l2 n := by
  simp [countNamed, List.filter_append]

theorem countNamed_eq_zero_iff (l : List CallEvent) (n : String) :
    countNamed l n = 0 ↔ l.any (fun ev => ev.event == n) = false := by
  simp [countNamed, List.length_eq_zero, List.filter_eq_nil_iff, List.any_eq_false]

theorem mem_updateRecord {db : DB} {cid : String} {f : CallRecord → CallRecord}
    {p : String × CallRecord} (hp : p ∈ DB.updateRecord db cid f) :
    ∃ q ∈ db, p = (q.1, if q.1 = cid then f q.2 else q.2) := by
  unfold DB.updateRecord at hp
  obtain ⟨q, hq, hpq⟩ := List.mem_map.mp hp
  exact ⟨q, hq, hpq.symm⟩

theorem mem_updateRecord_cases {db : DB} {cid : String}
    {f : CallRecord → CallRecord} {p : String × CallRecord}
    (hp : p ∈ DB.updateRecord db cid f) :
    (∃ r, (cid, r) ∈ db ∧ p = (cid, f r)) ∨ p ∈ db := by
  obtain ⟨q, hq, hpq⟩ := mem_updateRecord hp
  by_cases hqc : q.1 = cid
  · left
    refine ⟨q.2, ?_, ?_⟩
    · rw [← hqc]
      simpa using hq
    · rw [hpq, if_pos hqc, hqc]
  · right
    rw [hpq, if_neg hqc]
    simpa using hq

theorem find_eq_of_mem_of_nodup {db : DB}
    (hnd : (db.map Prod.fst).Nodup) {k : String} {r : CallRecord}
    (h : (k, r) ∈ db) : DB.find db k = some r := by
  induction db with
  | nil => cases h
  | cons hd tl ih =>
    obtain ⟨hk, hr⟩ := hd
    simp only [List.map_cons, List.nodup_cons] at hnd
    rcases List.mem_cons.mp h with heq | htl
    · cases heq
      simp [DB.find]
    · have : hk ≠ k := by
        intro hcontra
        exact hnd.1 (hcontra ▸ (List.mem_map.mpr ⟨(k, r), htl, rfl⟩))
      simp [DB.find, this, ih hnd.2 htl]

theorem check_if_answered_iff (l : List CallEvent) :
    check_if_answered l = true ↔
      (∃ ev ∈ l, ev.event = "egress_started") ∨
      (∃ ev ∈ l, ev.event = "participant_joined" ∧
        (CallEvent.identityOf ev).startsWith "sip-" = true) := by
  unfold check_if_answered
  by_cases h : l.isEmpty
  · rw [List.isEmpty_iff] at h
    subst h
    simp
  · simp only [Bool.not_eq_true] at h
    simp [h, List.any_eq_true, Bool.and_eq_true, beq_iff_eq]

theorem filter_length_pos_iff {α : Type} (l : List α) (p : α → Bool) :
    0 < (l.filter p).length ↔ ∃ a ∈ l, p a = true := by
  rw [List.length_pos]
  constructor
  · intro hne
    obtain ⟨x, hx⟩ := List.exists_mem_of_ne_nil _ hne
    rw [List.mem_filter] at hx
    exact ⟨x, hx.1, hx.2⟩
  · rintro ⟨a, ha, hp⟩
    intro hcontra
    have := List.mem_filter.mpr ⟨ha, hp⟩
    rw [hcontra] at this
    cases this

theorem sql_overlap_iff {as ae s e : Nat} (hse : s < e) (hwf : as < ae) :
    ((as ≤ s ∧ s < ae) ∨ (as < e ∧ e ≤ ae) ∨ (s ≤ as ∧ ae ≤ e)) ↔
      (as < e ∧ s < ae) := by omega

theorem conflictsWith_iff (a : Appointment) (u : Nat) (date : String)
    (s e : Nat) (hse : s < e) (hwf : a.start_time < a.end_time) :
    conflictsWith a u date s e = true ↔
      a.user_id = u ∧ a.appointment_date = date ∧ a.status = "scheduled" ∧
        a.start_time < e ∧ s < a.end_time := by
  unfold conflictsWith
  simp only [Bool.and_eq_true, Bool.or_eq_true, beq_iff_eq, decide_eq_true_eq]
  constructor
  · rintro ⟨⟨⟨hu, hd⟩, hs⟩, hdisj⟩
    exact ⟨hu, hd, hs, by omega⟩
  · rintro ⟨hu, hd, hs, h1, h2⟩
    exact ⟨⟨⟨hu, hd⟩, hs⟩, by omega⟩

theorem countNamed_singleton (ev : CallEvent) (n : String) :
    countNamed [ev] n = if ev.event = n then 1 else 0 := by
  by_cases h : ev.event = n
  · have hb : (ev.event == n) = true := beq_iff_eq.mpr h
    simp [countNamed, hb, h]
  · have hb : (ev.event == n) = false := by
      simpa using h
    simp [countNamed, hb, h]

theorem any_append_name (l : List CallEvent) (ev : CallEvent) (n : String)
    (h : ev.event = n) :
    (l ++ [ev]).any (fun e => e.event == n) = true := by
  simp [List.any_append, h]

theorem add_call_event_not_found (db : DB) (cid evn : String) (t : Int)
    (d : EventData) (h : DB.find db cid = none) :
    add_call_event db cid evn t d = db := by
  unfold add_call_event
  rw [h]

theorem add_call_event_dup (db : DB) (cid evn : String) (t : Int)
    (d : EventData) (row : CallRecord) (h : DB.find db cid = some row)
    (hany : (row.events_log.any fun e => e.event == evn) = true) :
    add_call_event db cid evn t d = db := by
  unfold add_call_event
  rw [h]
  show (if (row.events_log.any fun e => e.event == evn) = true
    then db else _) = db
  rw [if_pos hany]

theorem add_call_event_append (db : DB) (cid evn : String) (t : Int)
    (d : EventData) (row : CallRecord) (h : DB.find db cid = some row)
    (hany : (row.events_log.any fun e => e.event == evn) = false) :
    add_call_event db cid evn t d =
      DB.updateRecord db cid (fun r =>
        { r with events_log := r.events_log ++
            [{ event := evn, timestamp := t, data := d }] }) := by
  unfold add_call_event
  rw [h]
  show (if (row.events_log.any fun e => e.event == evn) = true
    then db else _) = _
  rw [hany]
  simp

/-! Claim theorems. -/

/-- C5: check_appointment_conflict answers true exactly when some stored
appointment of the same user and date with status scheduled overlaps the
proposed half-open interval, overlap meaning s < end and start < e. -/
theorem check_appointment_conflict_iff_overlap (appointments : List Appointment)
    (u : Nat) (date : String) (s e : Nat) (hse : s < e)
    (hwf : ∀ a ∈ appointments, a.start_time < a.end_time) :
    check_appointment_conflict appointments u date s e = true ↔
      ∃ a ∈ appointments, a.user_id = u ∧ a.appointment_date = date ∧
        a.status = "scheduled" ∧ a.start_time < e ∧ s < a.end_time := by
  unfold check_appointment_conflict
  rw [decide_eq_true_eq, filter_length_pos_iff]
  constructor
  · rintro ⟨a, ha, hpa⟩
    exact ⟨a, ha, (conflictsWith_iff a u date s e hse (hwf a ha)).mp hpa⟩
  · rintro ⟨a, ha, hconds⟩
    exact ⟨a, ha, (conflictsWith_iff a u date s e hse (hwf a ha)).mpr hconds⟩

/-- C5 witness: a proposed 14:00-15:00 slot conflicts with a scheduled
13:30-14:30 appointment and not with a scheduled 15:00-16:00 one. -/
theorem check_appointment_conflict_iff_overlap_witness :
    check_appointment_conflict [apt1330] 7 "2025-11-05" 840 900 = true
  ∧ check_appointment_conflict [apt1500] 7 "2025-11-05" 840 900 = false := by
  constructor
  · exact (check_appointment_conflict_iff_overlap [apt1330] 7 "2025-11-05" 840 900
      (by decide) (by decide)).mpr
      ⟨apt1330, by simp, rfl, rfl, rfl, by decide, by decide⟩
  · have h := check_appointment_conflict_iff_overlap [apt1500] 7 "2025-11-05" 840 900
      (by decide) (by decide)
    rw [← Bool.not_eq_true]
    intro htrue
    obtain ⟨a, ha, _, _, _, h1, h2⟩ := h.mp htrue
    rw [List.mem_singleton] at ha
    subst ha
    exact absurd h1 (by decide)

/-- C10: the computed call duration is never negative; with the end
timestamp at or before the start it is exactly 0, both for the
calculate_duration helper and for the durations the webhook recomputation
persists. -/
theorem duration_never_negative (so eo : Option Int) (s e : Int)
    (row : CallRecord) (now : Int) (h : e ≤ s) :
    0 ≤ calculate_duration so eo
  ∧ calculate_duration (some s) (some e) = 0
  ∧ (∀ d, (recomputeUpdates row now).duration = some d → 0 ≤ d)
  ∧ (∀ d, (terminalRefreshUpdates row now).duration = some d → 0 ≤ d)
  ∧ (now ≤ row.started_at.getD row.created_at →
      (recomputeUpdates row now).duration = some 0 ∧
      (terminalRefreshUpdates row now).duration = some 0) := by
  refine ⟨?_, ?_, ?_, ?_, ?_⟩
  · unfold calculate_duration
    rcases so with _ | s1 <;> rcases eo with _ | e1 <;> simp
    split
    · exact le_refl 0
    · exact le_max_left 0 _
  · unfold calculate_duration
    simp only []
    split
    · rfl
    · rw [max_eq_left (by omega : e - s ≤ 0)]
  · intro d hd
    simp only [recomputeUpdates] at hd
    rw [Option.some_inj] at hd
    rw [← hd]
    exact le_max_left 0 _
  · intro d hd
    simp only [terminalRefreshUpdates] at hd
    rw [Option.some_inj] at hd
    rw [← hd]
    exact le_max_left 0 _
  · intro hns
    constructor
    · simp only [recomputeUpdates]
      rw [Option.some_inj]
      have hle : (if check_if_answered row.events_log then
          now - row.started_at.getD row.created_at else 0) ≤ 0 := by
        split <;> omega
      exact max_eq_left hle
    · simp only [terminalRefreshUpdates]
      rw [Option.some_inj]
      exact max_eq_left (by omega)

/-- C10 witness at a concrete clock-skewed input. -/
theorem duration_never_negative_witness :
    calculate_duration (some 50) (some 20) = 0 :=
  (duration_never_negative (some 50) (some 20) 50 20 sampleRecord 0
    (by omega)).2.1

/-- Zeta-expanded form of recomputeFinalStatus. -/
theorem recomputeFinalStatus_eq (row : CallRecord) :
    recomputeFinalStatus row =
      if check_if_answered row.events_log ||
          (row.status == "connected" || row.status == "completed")
        then "completed" else "unanswered" := rfl

/-- The branch shape of the final-status decision. -/
theorem if_completed_iff (c : Bool) :
    (if c then ("completed" : String) else "unanswered") = "completed" ↔
      c = true := by
  cases c
  · exact iff_of_false (by decide) (by decide)
  · exact iff_of_true (by decide) rfl

/-- C2: the recomputed final status is completed exactly when the event log
holds an egress_started event, or a participant_joined event whose identity
starts with "sip-", or the prior status was connected or completed;
otherwise it is unanswered and the persisted duration is 0. -/
theorem recompute_final_status_spec (row : CallRecord) (now : Int) :
    (recomputeFinalStatus row = "completed" ↔
      (∃ ev ∈ row.events_log, ev.event = "egress_started") ∨
      (∃ ev ∈ row.events_log, ev.event = "participant_joined" ∧
        (CallEvent.identityOf ev).startsWith "sip-" = true) ∨
      row.status = "connected" ∨ row.status = "completed")
  ∧ (recomputeFinalStatus row ≠ "completed" →
      recomputeFinalStatus row = "unanswered" ∧
      (recomputeUpdates row now).duration = some 0) := by
  have hca := check_if_answered_iff row.events_log
  constructor
  · rw [recomputeFinalStatus_eq, if_completed_iff, Bool.or_eq_true,
      Bool.or_eq_true, beq_iff_eq, beq_iff_eq, hca]
    constructor
    · rintro ((h | h) | (h | h))
      · exact Or.inl h
      · exact Or.inr (Or.inl h)
      · exact Or.inr (Or.inr (Or.inl h))
      · exact Or.inr (Or.inr (Or.inr h))
    · rintro (h | h | h | h)
      · exact Or.inl (Or.inl h)
      · exact Or.inl (Or.inr h)
      · exact Or.inr (Or.inl h)
      · exact Or.inr (Or.inr h)
  · intro hne
    have hcond : (check_if_answered row.events_log ||
        (row.status == "connected" || row.status == "completed")) = false := by
      rcases Bool.eq_false_or_eq_true (check_if_answered row.events_log ||
        (row.status == "connected" || row.status == "completed")) with ht | hf
      · rw [recomputeFinalStatus_eq, ht] at hne
        exact (hne rfl).elim
      · exact hf
    have ha : check_if_answered row.events_log = false :=
      (Bool.or_eq_false_iff.mp hcond).1
    constructor
    · rw [recomputeFinalStatus_eq, hcond]
      rfl
    · simp [recomputeUpdates, ha]

/-- C7: for a call_id present in call_history, add_agent_event raises
NameError on the unbound global timezone before any event is appended, and
with the default timestamp the same name is reached even earlier, so no
agent event is ever stored. -/
theorem add_agent_event_raises_name_error (db : DB) (cid etype edata : String)
    (ts : Option Int) (now : Int) (row : CallRecord)
    (hrow : DB.find db cid = some row) :
    add_agent_event db cid etype edata ts now =
      Except.error (PyErr.nameError "timezone")
  ∧ (∀ (db2 : DB) (cid2 : String),
      add_agent_event db2 cid2 etype edata none now =
        Except.error (PyErr.nameError "timezone")) := by
  constructor
  · rcases ts with _ | t
    · rfl
    · unfold add_agent_event
      rw [hrow]
      rfl
  · intro db2 cid2
    rfl

/-- C7 witness at a concrete stored call. -/
theorem add_agent_event_raises_name_error_witness :
    add_agent_event [("call-7", sampleRecord)] "call-7" "connected" "" (some 3) 100 =
      Except.error (PyErr.nameError "timezone") :=
  (add_agent_event_raises_name_error [("call-7", sampleRecord)] "call-7"
    "connected" "" (some 3) 100 sampleRecord rfl).1

/-- C6: at the failing input (a stored agent event of the same event_type
with supplied timestamp 100, a new report with supplied timestamp 103 at
wall-clock 1000) the claim expects a silent duplicate drop by
supplied-timestamp proximity; the code instead evaluates the unbound name
timezone and raises NameError (and the written comparison uses the wall
clock, not the supplied timestamp), storing and dropping nothing. -/
theorem add_agent_event_c6_failing_input :
    add_agent_event [("call-6", c6Record)] "call-6" "connected" "" (some 103) 1000 =
      Except.error (PyErr.nameError "timezone") := rfl

/-- C8: at the failing input (a call_id with no stored row) the status query
does not produce its not_found result: evaluating db.conn raises
AttributeError, so the handler answers from its generic except branch with
status error and HTTP 500. -/
theorem get_call_status_unknown_gives_error :
    get_call_status [] "unknown-call" 0 =
      { status := "error", is_final := true, http_code := 500,
        time_elapsed := none, duration := none } := rfl

/-- C9 counterexample: get_connection runs no liveness probe and has no
unpooled fallback — on an exhausted pool the caller gets an error rather
than a fresh connection, and a pooled connection that would fail the probe
is handed out as-is. -/
theorem get_connection_no_probe_counterexample :
    get_connection { conns := [] } = none
  ∧ get_connection { conns := [{ id := 1, alive := false }] } =
      some ({ id := 1, alive := false }, { conns := [] }) := ⟨rfl, rfl⟩

/-- C9 amended: get_connection hands out exactly the next pooled connection,
alive or not, fails on an exhausted pool, and release_connection returns any
connection, dead connections included, to the pool. -/
theorem get_connection_hands_out_pool_head (p : Pool) :
    (∀ c p2, get_connection p = some (c, p2) → c ∈ p.conns)
  ∧ (get_connection p = none ↔ p.conns = [])
  ∧ (∀ c, c ∈ (release_connection p c).conns) := by
  refine ⟨?_, ?_, ?_⟩
  · intro c p2 hc
    cases hp : p.conns with
    | nil => simp [get_connection, hp] at hc
    | cons hd tl =>
      simp [get_connection, hp] at hc
      obtain ⟨h1, h2⟩ := hc
      subst h1
      exact List.mem_cons_self _ _
  · cases hp : p.conns with
    | nil => simp [get_connection, hp]
    | cons hd tl => simp [get_connection, hp]
  · intro c
    simp [release_connection]

/-- C4: with unique call ids and per-name-unique event logs, every
add_call_event append preserves per-name uniqueness; an append whose event
name is already logged leaves the database unchanged, appending the same
name twice equals appending it once, and after a double append the log
holds exactly one entry of that name. -/
theorem add_call_event_dedup (db : DB) (cid name : String) (t1 t2 : Int)
    (d1 d2 : EventData)
    (hkeys : (db.map Prod.fst).Nodup)
    (huniq : ∀ p ∈ db, uniqueEvents p.2.events_log) :
    (∀ p ∈ add_call_event db cid name t1 d1, uniqueEvents p.2.events_log)
  ∧ (∀ row, DB.find db cid = some row →
      row.events_log.any (fun ev => ev.event == name) = true →
      add_call_event db cid name t1 d1 = db)
  ∧ add_call_event (add_call_event db cid name t1 d1) cid name t2 d2 =
      add_call_event db cid name t1 d1
  ∧ (∀ row row2, DB.find db cid = some row →
      countNamed row.events_log name = 0 →
      DB.find (add_call_event (add_call_event db cid name t1 d1) cid name t2 d2)
          cid = some row2 →
      countNamed row2.events_log name = 1) := by
  refine ⟨?_, ?_, ?_, ?_⟩
  · intro p hp
    cases hfind : DB.find db cid with
    | none =>
      rw [add_call_event_not_found db cid name t1 d1 hfind] at hp
      exact huniq p hp
    | some row =>
      rcases Bool.eq_false_or_eq_true
          (row.events_log.any fun ev => ev.event == name) with hany | hany
      · rw [add_call_event_dup db cid name t1 d1 row hfind hany] at hp
        exact huniq p hp
      · rw [add_call_event_append db cid name t1 d1 row hfind hany] at hp
        rcases mem_updateRecord_cases hp with ⟨r0, hr0, hpeq⟩ | hmem
        · have hfq := find_eq_of_mem_of_nodup hkeys hr0
          rw [hfind] at hfq
          obtain rfl : row = r0 := Option.some_inj.mp hfq
          rw [hpeq]
          intro n
          show countNamed (row.events_log ++
            [{ event := name, timestamp := t1, data := d1 }]) n ≤ 1
          rw [countNamed_append, countNamed_singleton]
          by_cases hn : name = n
          · have h0 : countNamed row.events_log name = 0 :=
              (countNamed_eq_zero_iff row.events_log name).mpr hany
            subst hn
            simp [h0]
          · rw [if_neg hn, add_zero]
            exact huniq (cid, row) hr0 n
        · exact huniq p hmem
  · intro row hfind hany
    exact add_call_event_dup db cid name t1 d1 row hfind hany
  · cases hfind : DB.find db cid with
    | none =>
      rw [add_call_event_not_found db cid name t1 d1 hfind,
        add_call_event_not_found db cid name t2 d2 hfind]
    | some row =>
      rcases Bool.eq_false_or_eq_true
          (row.events_log.any fun ev => ev.event == name) with hany | hany
      · rw [add_call_event_dup db cid name t1 d1 row hfind hany,
          add_call_event_dup db cid name t2 d2 row hfind hany]
      · have hfindA : DB.find (add_call_event db cid name t1 d1) cid =
            some { row with events_log := row.events_log ++
              [{ event := name, timestamp := t1, data := d1 }] } := by
          rw [add_call_event_append db cid name t1 d1 row hfind hany,
            find_updateRecord, if_pos rfl, hfind]
          rfl
        exact add_call_event_dup _ cid name t2 d2 _ hfindA
          (any_append_name row.events_log _ name rfl)
  · intro row row2 hfind h0 hfind2
    have hany : (row.events_log.any fun ev => ev.event == name) = false :=
      (countNamed_eq_zero_iff row.events_log name).mp h0
    have hfindA : DB.find (add_call_event db cid name t1 d1) cid =
        some { row with events_log := row.events_log ++
          [{ event := name, timestamp := t1, data := d1 }] } := by
      rw [add_call_event_append db cid name t1 d1 row hfind hany,
        find_updateRecord, if_pos rfl, hfind]
      rfl
    rw [add_call_event_dup _ cid name t2 d2 _ hfindA
      (any_append_name row.events_log _ name rfl), hfindA] at hfind2
    have hrow2 : row2 = { row with events_log := row.events_log ++
        [{ event := name, timestamp := t1, data := d1 }] } :=
      (Option.some_inj.mp hfind2).symm
    rw [hrow2]
    show countNamed (row.events_log ++
      [{ event := name, timestamp := t1, data := d1 }]) name = 1
    rw [countNamed_append, countNamed_singleton, h0]
    simp

/-- C4 witness: a fresh call with an empty log, appended twice with the
same event name, stores exactly one entry of that name. -/
theorem add_call_event_dedup_witness :
    DB.find (add_call_event (add_call_event [("call-4", rec4)]
        "call-4" "room_started" 1 { participant := none })
        "call-4" "room_started" 2 { participant := none }) "call-4"
      = some rec4b
  ∧ countNamed rec4b.events_log "room_started" = 1 := by
  refine ⟨by decide, ?_⟩
  exact (add_call_event_dedup [("call-4", rec4)] "call-4" "room_started" 1 2
    { participant := none } { participant := none } (by simp)
    (by
      intro p hp n
      simp at hp
      subst hp
      simp [rec4, sampleRecord, countNamed])).2.2.2
    rec4 rec4b (by decide) (by simp [rec4, sampleRecord, countNamed]) (by decide)

theorem livekit_webhook_no_call_id (db : DB) (req : WebhookRequest) (now : Int)
    (h : webhookCallId req = none) :
    livekit_webhook db req now = (db, Resp.msg "No call_id") := by
  unfold livekit_webhook
  rw [h]

theorem livekit_webhook_eq_some (db : DB) (req : WebhookRequest) (now : Int)
    (c : String) (h : webhookCallId req = some c) :
    livekit_webhook db req now =
      (let db1 := add_call_event db c req.event now { participant := req.participant }
       if nonCriticalEvents.contains req.event then
         (db1, Resp.msg (req.event ++ " logged"))
       else if req.event == "room_finished" || req.event == "participant_left" then
         (db1, Resp.err 500 (PyErr.attributeError "conn"))
       else if req.event == "egress_ended" then
         (match optStrTruthy req.egress_file_location with
          | some loc =>
            (update_call_history db1 c { recording_url := some loc },
             Resp.msg "Recording saved")
          | none => (db1, Resp.msg (req.event ++ " processed")))
       else (db1, Resp.msg (req.event ++ " processed"))) := by
  unfold livekit_webhook
  rw [h]
  rfl

theorem livekit_webhook_preserves_status (db : DB) (req : WebhookRequest)
    (now : Int) (k : String) :
    (DB.find (livekit_webhook db req now).1 k).map CallRecord.status =
      (DB.find db k).map CallRecord.status := by
  cases hcid : webhookCallId req with
  | none => rw [livekit_webhook_no_call_id db req now hcid]
  | some c =>
    rw [livekit_webhook_eq_some db req now c hcid]
    show (DB.find (if nonCriticalEvents.contains req.event then _
      else _ : DB × Resp).1 k).map CallRecord.status = _
    by_cases h1 : nonCriticalEvents.contains req.event = true
    · rw [if_pos h1]
      exact find_map_status_add_call_event db c req.event now
        { participant := req.participant } k
    · rw [if_neg h1]
      by_cases h2 : (req.event == "room_finished" ||
          req.event == "participant_left") = true
      · rw [if_pos h2]
        exact find_map_status_add_call_event db c req.event now
          { participant := req.participant } k
      · rw [if_neg h2]
        by_cases h3 : (req.event == "egress_ended") = true
        · rw [if_pos h3]
          cases hloc : optStrTruthy req.egress_file_location with
          | none =>
            exact find_map_status_add_call_event db c req.event now
              { participant := req.participant } k
          | some loc =>
            exact (find_map_status_updateRecord
                (add_call_event db c req.event now { participant := req.participant })
                c k (fun r => applyUpdates r { recording_url := some loc })
                (fun r => rfl)).trans
              (find_map_status_add_call_event db c req.event now
                { participant := req.participant } k)
        · rw [if_neg h3]
          exact find_map_status_add_call_event db c req.event now
            { participant := req.participant } k

theorem receive_agent_event_no_call_id (db : DB) (rep : AgentReport) (now : Int)
    (h : optStrTruthy rep.call_id = none) :
    receive_agent_event db rep now = (db, Resp.badRequest "Missing data") := by
  unfold receive_agent_event
  rw [h]
  cases optStrTruthy rep.status <;> rfl

theorem receive_agent_event_no_status (db : DB) (rep : AgentReport) (now : Int)
    (c : String) (hc : optStrTruthy rep.call_id = some c)
    (h : optStrTruthy rep.status = none) :
    receive_agent_event db rep now = (db, Resp.badRequest "Missing data") := by
  unfold receive_agent_event
  rw [hc, h]

theorem receive_agent_event_eq_some (db : DB) (rep : AgentReport) (now : Int)
    (c st : String) (hc : optStrTruthy rep.call_id = some c)
    (hs : optStrTruthy rep.status = some st) :
    receive_agent_event db rep now =
      (if !(allowedAgentStatuses.contains st) then
        (db, Resp.badRequest "Invalid status")
       else if st == "dialing" || st == "connected" then
        (db, Resp.err 500 (PyErr.attributeError "conn"))
       else if st == "unanswered" then
        (update_call_history db c
          { status := some st, ended_at := some now, duration := some 0 },
         Resp.success)
       else (update_call_history db c { status := some st }, Resp.success)) := by
  unfold receive_agent_event
  rw [hc, hs]
  rfl

theorem optStrTruthy_some {o : Option String} {s : String}
    (h : optStrTruthy o = some s) : o = some s := by
  cases o with
  | none => cases h
  | some v =>
    simp only [optStrTruthy] at h
    by_cases hv : v = ""
    · rw [if_pos hv] at h
      cases h
    · rw [if_neg hv] at h
      exact h

/-- C9 amended witness at a concrete one-connection pool. -/
theorem get_connection_hands_out_pool_head_witness :
    ({ id := 2, alive := true } : Conn) ∈
      (({ conns := [{ id := 2, alive := true }] } : Pool)).conns :=
  (get_connection_hands_out_pool_head { conns := [{ id := 2, alive := true }] }).1
    { id := 2, alive := true } { conns := [] } rfl

/-- C3: class PGDB defines no attribute conn, so db.conn() raises
AttributeError; the status query always answers from its generic except
branch with a 500 error response, an agent report of dialing or connected
returns a 500 error without touching the database, and a terminal-trigger
webhook returns a 500 error after logging the event, leaving every stored
status unchanged — the recomputation never persists a final status. -/
theorem db_conn_attribute_error (db1 db2 db3 : DB) (cid : String)
    (now1 now2 now3 : Int) (req : WebhookRequest) (rep : AgentReport)
    (c rc st : String)
    (hev : req.event = "room_finished" ∨ req.event = "participant_left")
    (hcid : webhookCallId req = some c)
    (hrc : optStrTruthy rep.call_id = some rc)
    (hst : optStrTruthy rep.status = some st)
    (hstv : st = "dialing" ∨ st = "connected") :
    pgdbAttributes.contains "conn" = false
  ∧ get_call_status db2 cid now2 =
      { status := "error", is_final := true, http_code := 500,
        time_elapsed := none, duration := none }
  ∧ receive_agent_event db3 rep now3 =
      (db3, Resp.err 500 (PyErr.attributeError "conn"))
  ∧ (livekit_webhook db1 req now1).2 = Resp.err 500 (PyErr.attributeError "conn")
  ∧ (livekit_webhook db1 req now1).1 =
      add_call_event db1 c req.event now1 { participant := req.participant }
  ∧ ∀ k, (DB.find (livekit_webhook db1 req now1).1 k).map CallRecord.status =
      (DB.find db1 k).map CallRecord.status := by
  have hweb : livekit_webhook db1 req now1 =
      (add_call_event db1 c req.event now1 { participant := req.participant },
       Resp.err 500 (PyErr.attributeError "conn")) := by
    rw [livekit_webhook_eq_some db1 req now1 c hcid]
    have h1 : nonCriticalEvents.contains req.event = false := by
      rcases hev with h | h <;> rw [h] <;> rfl
    have h2 : (req.event == "room_finished" ||
        req.event == "participant_left") = true := by
      rcases hev with h | h <;> rw [h] <;> rfl
    show (if nonCriticalEvents.contains req.event then _ else _ : DB × Resp) = _
    rw [if_neg (by rw [h1]; exact Bool.false_ne_true), if_pos h2]
  have hrep : receive_agent_event db3 rep now3 =
      (db3, Resp.err 500 (PyErr.attributeError "conn")) := by
    rw [receive_agent_event_eq_some db3 rep now3 rc st hrc hst]
    rcases hstv with h | h <;> rw [h] <;> rfl
  refine ⟨rfl, rfl, hrep, ?_, ?_, ?_⟩
  · rw [hweb]
  · rw [hweb]
  · intro k
    rw [hweb]
    exact find_map_status_add_call_event db1 c req.event now1
      { participant := req.participant } k

/-- C3 witness: a room_finished webhook and a dialing report at concrete
inputs both surface the AttributeError as a 500 error response. -/
theorem db_conn_attribute_error_witness :
    get_call_status [] "call-3" 0 =
      { status := "error", is_final := true, http_code := 500,
        time_elapsed := none, duration := none }
  ∧ receive_agent_event []
      { call_id := some "call-3", status := some "dialing", timestamp := none } 0 =
      ([], Resp.err 500 (PyErr.attributeError "conn")) := by
  have h := db_conn_attribute_error [] [] [] "call-3" 0 0 0
    { event := "room_finished", room_name := some "call-3",
      egress_room_name := none, egress_file_location := none,
      participant := none }
    { call_id := some "call-3", status := some "dialing", timestamp := none }
    "call-3" "call-3" "dialing" (Or.inl rfl) rfl rfl rfl (Or.inl rfl)
  exact ⟨h.2.1, h.2.2.1⟩

/-- C1 counterexample: a call stored with the terminal status completed, on
an agent self-report of initialized, has initialized written into its status
column — a non-terminal value, so the no-regression claim fails. -/
theorem agent_initialized_overwrites_terminal :
    (DB.find [("call-1", sampleRecord)] "call-1").map CallRecord.status =
      some "completed"
  ∧ ((DB.find (receive_agent_event [("call-1", sampleRecord)]
      { call_id := some "call-1", status := some "initialized",
        timestamp := none } 100).1 "call-1").map CallRecord.status) =
      some "initialized"
  ∧ terminalStatuses.contains "initialized" = false := by
  refine ⟨rfl, by decide, rfl⟩

/-- C1 amended: once a stored status is terminal, no platform webhook
changes any stored status, and an agent self-report with any reported
status other than initialized leaves the status terminal (dialing and
connected fail with AttributeError before writing, unanswered writes the
terminal value unanswered); a report of initialized, however, does
overwrite the terminal status with the non-terminal value initialized. -/
theorem terminal_status_no_regression_amended (db : DB) (cid : String)
    (r : CallRecord) (req : WebhookRequest) (rep : AgentReport)
    (now1 now2 : Int)
    (hfind : DB.find db cid = some r)
    (hterm : r.status = "completed" ∨ r.status = "unanswered") :
    ((DB.find (livekit_webhook db req now1).1 cid).map CallRecord.status =
      some r.status)
  ∧ (rep.status ≠ some "initialized" →
      ∀ r2, DB.find (receive_agent_event db rep now2).1 cid = some r2 →
        r2.status = "completed" ∨ r2.status = "unanswered") := by
  constructor
  · rw [livekit_webhook_preserves_status db req now1 cid, hfind]
    rfl
  · intro hne r2 hr2
    have hsame : ∀ h2 : DB.find db cid = some r2,
        r2.status = "completed" ∨ r2.status = "unanswered" := by
      intro h2
      rw [hfind] at h2
      obtain rfl : r = r2 := Option.some_inj.mp h2
      exact hterm
    cases hrc : optStrTruthy rep.call_id with
    | none =>
      rw [receive_agent_event_no_call_id db rep now2 hrc] at hr2
      exact hsame hr2
    | some c =>
      cases hst : optStrTruthy rep.status with
      | none =>
        rw [receive_agent_event_no_status db rep now2 c hrc hst] at hr2
        exact hsame hr2
      | some st =>
        have hstn : st ≠ "initialized" := by
          intro hcontra
          exact hne (hcontra ▸ optStrTruthy_some hst)
        rw [receive_agent_event_eq_some db rep now2 c st hrc hst] at hr2
        rcases Bool.eq_false_or_eq_true
            (allowedAgentStatuses.contains st) with hal | hal
        · have hmem : st ∈ allowedAgentStatuses :=
            List.mem_of_elem_eq_true hal
          rw [if_neg (by rw [hal]; simp)] at hr2
          simp [allowedAgentStatuses] at hmem
          rcases hmem with h | h | h | h
          · exact absurd h hstn
          · subst h
            rw [if_pos (by rfl)] at hr2
            exact hsame hr2
          · subst h
            rw [if_pos (by rfl)] at hr2
            exact hsame hr2
          · subst h
            rw [if_neg (by decide), if_pos (by rfl)] at hr2
            have hr2a : DB.find (DB.updateRecord db c (fun r0 => applyUpdates r0
                { status := some "unanswered", ended_at := some now2,
                  duration := some 0 })) cid = some r2 := hr2
            rw [find_updateRecord] at hr2a
            by_cases hcc : cid = c
            · rw [if_pos hcc, hfind] at hr2a
              have heq : applyUpdates r
                  { status := some "unanswered", ended_at := some now2,
                    duration := some 0 } = r2 :=
                Option.some_inj.mp hr2a
              rw [← heq]
              right
              rfl
            · rw [if_neg hcc] at hr2a
              exact hsame hr2a
        · rw [if_pos (by rw [hal]; rfl)] at hr2
          exact hsame hr2

/-- C1 amended witness: a room_finished webhook against a call already
stored as completed leaves its status completed. -/
theorem terminal_status_no_regression_amended_witness :
    (DB.find (livekit_webhook [("call-1", sampleRecord)]
      { event := "room_finished", room_name := some "call-1",
        egress_room_name := none, egress_file_location := none,
        participant := none } 50).1 "call-1").map CallRecord.status =
      some "completed" :=
  (terminal_status_no_regression_amended [("call-1", sampleRecord)] "call-1"
    sampleRecord
    { event := "room_finished", room_name := some "call-1",
      egress_room_name := none, egress_file_location := none,
      participant := none }
    { call_id := some "call-1", status := some "unanswered", timestamp := none }
    50 60 rfl (Or.inl rfl)).1

/-- C2 witness: a record whose prior status is connected recomputes to
completed. -/
theorem recompute_final_status_spec_witness :
    recomputeFinalStatus c6Record = "completed" :=
  (recompute_final_status_spec c6Record 0).1.mpr (Or.inr (Or.inr (Or.inl rfl)))

end CallBackend
